import Mathlib

/-!
Shallow embedding of the ferrous-ci-cd domain core (Rust) in Lean 4.

Conventions of the embedding:
* `chrono::DateTime<Utc>` timestamps are modelled as integers (`Time := Int`);
  every call to `Utc::now()` inside a Rust method becomes an explicit `now`
  parameter of the corresponding Lean function.
* Identifier value objects (`AgentId`, `BuildId`, ...) are opaque and modelled
  as `Nat`; the id freshly generated inside a Rust constructor becomes an
  explicit parameter.
* `HashMap<String, String>` fields are modelled as association lists.
* A Rust mutator `fn m(&mut self, ...) -> crate::Result<()>` becomes
  `m : State → ... → Option Err × State`: the first component is `none` on
  `Ok(())` and `some e` on `Err(e)`; in the error branch the returned state is
  the unchanged input, matching Rust's early `return Err(...)` which leaves
  `&mut self` untouched.
* Fallible collaborators of the `AgentService` (repository update, event
  publishing) are passed as function parameters returning `Except Err Unit`;
  Rust's `?` operator becomes an explicit `match` that short-circuits.
-/

namespace Ferrous

/-- Timestamps, standing for `chrono::DateTime<Utc>` (seconds). -/
abbrev Time := Int

/-- Opaque agent identifier (`AgentId`). -/
abbrev AgentId := Nat

/-- Opaque build identifier (`BuildId`). -/
abbrev BuildId := Nat

/-- Opaque pipeline identifier (`PipelineId`). -/
abbrev PipelineId := Nat

/-- Opaque project identifier (`ProjectId`). -/
abbrev ProjectId := Nat

/-- Opaque job identifier (`JobId`). -/
abbrev JobId := Nat

/-- The constructors of `crate::Error` used by the embedded code
(`Error::validation`, `Error::build`, `Error::agent`). -/
inductive Err where
  | validation (msg : String)
  | build (msg : String)
  | agent (msg : String)
  deriving DecidableEq, Repr

/-- `AgentStatus` (src/domain/entities/agent.rs). -/
inductive AgentStatus where
  | online
  | busy
  | offline
  | maintenance
  | disconnected
  deriving DecidableEq, Repr

/-- `BuildStatus` (src/domain/value_objects/build_status.rs). -/
inductive BuildStatus where
  | pending
  | running
  | success
  | failed
  | cancelled
  deriving DecidableEq, Repr

/-- `JobStatus` (src/domain/entities/job.rs). -/
inductive JobStatus where
  | pending
  | queued
  | running
  | success
  | failed
  | cancelled
  | skipped
  deriving DecidableEq, Repr

/-- The `DomainEvent` variants emitted by the entities embedded here. -/
inductive DomainEvent where
  | agentRegistered (agent_id : AgentId) (name : String) (created_at : Time)
  | agentDisconnected (agent_id : AgentId) (disconnected_at : Time)
  | buildCreated (build_id : BuildId) (pipeline_id : PipelineId)
      (project_id : ProjectId) (number : Nat) (created_at : Time)
  | buildStarted (build_id : BuildId) (agent_id : AgentId) (started_at : Time)
  | buildCompleted (build_id : BuildId) (status : BuildStatus) (completed_at : Time)
  | buildCancelled (build_id : BuildId) (cancelled_at : Time)
  | pipelineCreated (pipeline_id : PipelineId) (project_id : ProjectId)
      (name : String) (created_at : Time)
  | pipelineConfigUpdated (pipeline_id : PipelineId) (old_version : Nat)
      (new_version : Nat) (updated_at : Time)
  deriving DecidableEq, Repr

/-- `AgentPlatform` (src/domain/entities/agent.rs). -/
structure AgentPlatform where
  os : String
  os_version : String
  architecture : String
  cpu_cores : Nat
  memory_mb : Nat
  disk_gb : Nat
  deriving DecidableEq, Repr

/-- `Agent` entity (src/domain/entities/agent.rs). -/
structure Agent where
  id : AgentId
  name : String
  description : Option String
  status : AgentStatus
  labels : List (String × String)
  max_concurrent_jobs : Nat
  current_jobs : Nat
  platform : AgentPlatform
  last_heartbeat : Time
  ip_address : Option String
  version : String
  created_at : Time
  updated_at : Time
  events : List DomainEvent
  deriving DecidableEq, Repr

/-- `Agent::new`: fresh agent, `status = Offline`, `current_jobs = 0`, one
buffered `AgentRegistered` event. The generated id and `Utc::now()` are
explicit parameters. -/
def Agent.new (id : AgentId) (name : String) (max_concurrent_jobs : Nat)
    (platform : AgentPlatform) (version : String) (now : Time) : Agent :=
  { id := id
    name := name
    description := none
    status := .offline
    labels := []
    max_concurrent_jobs := max_concurrent_jobs
    current_jobs := 0
    platform := platform
    last_heartbeat := now
    ip_address := none
    version := version
    created_at := now
    updated_at := now
    events := [.agentRegistered id name now] }

/-- `Agent::can_accept_job`. -/
def Agent.can_accept_job (a : Agent) : Bool :=
  a.status == .online && decide (a.current_jobs < a.max_concurrent_jobs)

/-- `Agent::register`. -/
def Agent.register (a : Agent) (ip_address : String) (now : Time) :
    Option Err × Agent :=
  (none, { a with status := .online, ip_address := some ip_address,
                  last_heartbeat := now, updated_at := now })

/-- `Agent::heartbeat`. -/
def Agent.heartbeat (a : Agent) (now : Time) : Option Err × Agent :=
  (none, { a with last_heartbeat := now, updated_at := now })

/-- `Agent::disconnect` (infallible in the source: no `Result`). -/
def Agent.disconnect (a : Agent) (now : Time) : Agent :=
  { a with status := .offline, updated_at := now,
           events := a.events ++ [.agentDisconnected a.id now] }

/-- `Agent::set_maintenance` (infallible in the source). -/
def Agent.set_maintenance (a : Agent) (now : Time) : Agent :=
  { a with status := .maintenance, updated_at := now }

/-- `Agent::assign_job`. -/
def Agent.assign_job (a : Agent) (now : Time) : Option Err × Agent :=
  if !a.can_accept_job then
    (some (.agent "Agent cannot accept more jobs"), a)
  else
    (none, { a with
      current_jobs := a.current_jobs + 1
      status := if a.current_jobs + 1 ≥ a.max_concurrent_jobs then .busy else .online
      updated_at := now })

/-- `Agent::release_job`. -/
def Agent.release_job (a : Agent) (now : Time) : Option Err × Agent :=
  if a.current_jobs = 0 then
    (some (.agent "No jobs to release"), a)
  else
    (none, { a with current_jobs := a.current_jobs - 1, status := .online,
                    updated_at := now })

/-- `Agent::add_label` (`HashMap::insert` replaces any previous binding). -/
def Agent.add_label (a : Agent) (key value : String) (now : Time) : Agent :=
  { a with labels := (key, value) :: a.labels.filter (fun p => p.1 != key),
           updated_at := now }

/-- `Agent::remove_label`. -/
def Agent.remove_label (a : Agent) (key : String) (now : Time) : Agent :=
  { a with labels := a.labels.filter (fun p => p.1 != key), updated_at := now }

/-- `Agent::has_label`. -/
def Agent.has_label (a : Agent) (key value : String) : Bool :=
  match a.labels.lookup key with
  | some v => v == value
  | none => false

/-- `Agent::is_dead`: no heartbeat for strictly more than `timeout_seconds`. -/
def Agent.is_dead (a : Agent) (timeout_seconds : Int) (now : Time) : Bool :=
  decide (now - a.last_heartbeat > timeout_seconds)

/-- `Agent::take_events`: drains the event buffer. -/
def Agent.take_events (a : Agent) : List DomainEvent × Agent :=
  (a.events, { a with events := [] })

/-- `BuildTrigger` (src/domain/entities/build.rs). -/
inductive BuildTrigger where
  | manual (user_id : String)
  | push
  | pullRequest (pr_number : Nat)
  | schedule (cron : String)
  | api (token : String)
  | webhook (source : String)
  deriving DecidableEq, Repr

/-- `Build` entity (src/domain/entities/build.rs). -/
structure Build where
  id : BuildId
  pipeline_id : PipelineId
  project_id : ProjectId
  number : Nat
  status : BuildStatus
  commit_sha : String
  branch : String
  commit_message : Option String
  commit_author : Option String
  agent_id : Option AgentId
  parameters : List (String × String)
  environment : List (String × String)
  started_at : Option Time
  completed_at : Option Time
  trigger : BuildTrigger
  logs_url : Option String
  artifacts : List String
  error_message : Option String
  created_at : Time
  updated_at : Time
  events : List DomainEvent
  deriving DecidableEq, Repr

/-- `Build::new`: fresh build, `status = Pending`, one buffered `BuildCreated`
event. -/
def Build.new (id : BuildId) (pipeline_id : PipelineId) (project_id : ProjectId)
    (number : Nat) (commit_sha : String) (branch : String)
    (trigger : BuildTrigger) (now : Time) : Build :=
  { id := id
    pipeline_id := pipeline_id
    project_id := project_id
    number := number
    status := .pending
    commit_sha := commit_sha
    branch := branch
    commit_message := none
    commit_author := none
    agent_id := none
    parameters := []
    environment := []
    started_at := none
    completed_at := none
    trigger := trigger
    logs_url := none
    artifacts := []
    error_message := none
    created_at := now
    updated_at := now
    events := [.buildCreated id pipeline_id project_id number now] }

/-- `Build::start`. -/
def Build.start (b : Build) (agent_id : AgentId) (now : Time) :
    Option Err × Build :=
  if b.status ≠ .pending then
    (some (.build "Build is not in pending state"), b)
  else
    (none, { b with status := .running, agent_id := some agent_id,
                    started_at := some now, updated_at := now,
                    events := b.events ++ [.buildStarted b.id agent_id now] })

/-- `Build::succeed`. -/
def Build.succeed (b : Build) (now : Time) : Option Err × Build :=
  if b.status ≠ .running then
    (some (.build "Build is not running"), b)
  else
    (none, { b with status := .success, completed_at := some now,
                    updated_at := now,
                    events := b.events ++ [.buildCompleted b.id .success now] })

/-- `Build::fail`. -/
def Build.fail (b : Build) (error : String) (now : Time) : Option Err × Build :=
  if b.status ≠ .running then
    (some (.build "Build is not running"), b)
  else
    (none, { b with status := .failed, error_message := some error,
                    completed_at := some now, updated_at := now,
                    events := b.events ++ [.buildCompleted b.id .failed now] })

/-- `Build::cancel`: guarded only by `status == Success || status == Failed`. -/
def Build.cancel (b : Build) (now : Time) : Option Err × Build :=
  if b.status = .success ∨ b.status = .failed then
    (some (.build "Cannot cancel completed build"), b)
  else
    (none, { b with status := .cancelled, completed_at := some now,
                    updated_at := now,
                    events := b.events ++ [.buildCancelled b.id now] })

/-- `Job` entity (src/domain/entities/job.rs). -/
structure Job where
  id : JobId
  build_id : BuildId
  name : String
  stage : String
  status : JobStatus
  agent_id : Option AgentId
  image : Option String
  commands : List String
  environment : List (String × String)
  working_directory : Option String
  timeout : Nat
  retry : Nat
  attempt : Nat
  dependencies : List String
  logs : String
  started_at : Option Time
  completed_at : Option Time
  exit_code : Option Int
  created_at : Time
  updated_at : Time
  deriving DecidableEq, Repr

/-- `Job::new`: fresh job, `status = Pending`, `attempt = 0`, `retry = 0`,
default timeout 3600. -/
def Job.new (id : JobId) (build_id : BuildId) (name : String) (stage : String)
    (commands : List String) (now : Time) : Job :=
  { id := id
    build_id := build_id
    name := name
    stage := stage
    status := .pending
    agent_id := none
    image := none
    commands := commands
    environment := []
    working_directory := none
    timeout := 3600
    retry := 0
    attempt := 0
    dependencies := []
    logs := ""
    started_at := none
    completed_at := none
    exit_code := none
    created_at := now
    updated_at := now }

/-- `Job::queue`. -/
def Job.queue (j : Job) (now : Time) : Option Err × Job :=
  if j.status ≠ .pending then
    (some (.build "Job is not in pending state"), j)
  else
    (none, { j with status := .queued, updated_at := now })

/-- `Job::start`: `Queued → Running`, increments `attempt`. -/
def Job.start (j : Job) (agent_id : AgentId) (now : Time) : Option Err × Job :=
  if j.status ≠ .queued then
    (some (.build "Job is not queued"), j)
  else
    (none, { j with status := .running, agent_id := some agent_id,
                    started_at := some now, attempt := j.attempt + 1,
                    updated_at := now })

/-- `Job::succeed`. -/
def Job.succeed (j : Job) (exit_code : Int) (now : Time) : Option Err × Job :=
  if j.status ≠ .running then
    (some (.build "Job is not running"), j)
  else
    (none, { j with status := .success, exit_code := some exit_code,
                    completed_at := some now, updated_at := now })

/-- `Job::fail`. -/
def Job.fail (j : Job) (exit_code : Int) (now : Time) : Option Err × Job :=
  if j.status ≠ .running then
    (some (.build "Job is not running"), j)
  else
    (none, { j with status := .failed, exit_code := some exit_code,
                    completed_at := some now, updated_at := now })

/-- `Job::can_retry`. -/
def Job.can_retry (j : Job) : Bool :=
  j.status == .failed && decide (j.attempt < j.retry + 1)

/-- `Job::retry_job`: resets to Queued, clears timestamps, exit code and logs;
`attempt` is untouched. -/
def Job.retry_job (j : Job) (now : Time) : Option Err × Job :=
  if !j.can_retry then
    (some (.build "Job cannot be retried"), j)
  else
    (none, { j with status := .queued, started_at := none,
                    completed_at := none, exit_code := none, logs := "",
                    updated_at := now })

/-- `WhenCondition` (src/domain/value_objects/pipeline_config.rs). -/
structure WhenCondition where
  branch : Option String
  event : Option String
  status : Option String
  deriving DecidableEq, Repr

/-- `ArtifactConfig` (pipeline_config.rs). -/
structure ArtifactConfig where
  paths : List String
  exclude : List String
  name : Option String
  expire_in : Option Nat
  deriving DecidableEq, Repr

/-- `CacheConfig` (pipeline_config.rs). -/
structure CacheConfig where
  key : String
  paths : List String
  policy : Option String
  deriving DecidableEq, Repr

/-- `SlackNotification` (pipeline_config.rs). -/
structure SlackNotification where
  channel : String
  on_success : Bool
  on_failure : Bool
  deriving DecidableEq, Repr

/-- `NotificationConfig` (pipeline_config.rs). -/
structure NotificationConfig where
  email : Option (List String)
  slack : Option SlackNotification
  webhooks : List String
  deriving DecidableEq, Repr

/-- `Trigger` (pipeline_config.rs). -/
inductive Trigger where
  | push (branches : List String)
  | pullRequest (branches : List String)
  | schedule (cron : String)
  | manual
  | tag (patterns : List String)
  deriving DecidableEq, Repr

namespace Config

/-- `Job` configuration (pipeline_config.rs), distinct from the runtime `Job`
entity. -/
structure Job where
  name : String
  image : Option String
  commands : List String
  environment : List (String × String)
  working_directory : Option String
  timeout : Option Nat
  retry : Option Nat
  artifacts : Option ArtifactConfig
  cache : Option CacheConfig
  needs : List String
  when : Option WhenCondition
  deriving DecidableEq, Repr

/-- `Stage` (pipeline_config.rs). -/
structure Stage where
  name : String
  jobs : List Config.Job
  parallel : Bool
  when : Option WhenCondition
  deriving DecidableEq, Repr

/-- `Job::validate` (pipeline_config.rs): non-empty name, and at least one
command or an image. -/
def Job.validate (j : Config.Job) : Except Err Unit :=
  if j.name = "" then
    .error (.validation "Job name cannot be empty")
  else if j.commands = [] ∧ j.image = none then
    .error (.validation "Job must have at least one command or an image")
  else
    .ok ()

end Config

/-- Sequential validation of a list with early exit, as Rust's
`for x in xs { x.validate()?; }`. -/
def validateEach (f : α → Except Err Unit) : List α → Except Err Unit
  | [] => .ok ()
  | x :: xs =>
    match f x with
    | .error e => .error e
    | .ok _ => validateEach f xs

/-- `Stage::validate` (pipeline_config.rs): non-empty name, at least one job,
every job valid. -/
def Config.Stage.validate (s : Config.Stage) : Except Err Unit :=
  if s.name = "" then
    .error (.validation "Stage name cannot be empty")
  else if s.jobs = [] then
    .error (.validation "Stage must have at least one job")
  else
    validateEach Config.Job.validate s.jobs

/-- `PipelineConfig` value object (pipeline_config.rs). -/
structure PipelineConfig where
  version : String
  stages : List Config.Stage
  triggers : List Trigger
  environment : List (String × String)
  notifications : Option NotificationConfig
  deriving DecidableEq, Repr

/-- `PipelineConfig::validate` (pipeline_config.rs): version non-empty, at
least one stage, all stages valid, at least one trigger. -/
def PipelineConfig.validate (c : PipelineConfig) : Except Err Unit :=
  if c.version = "" then
    .error (.validation "Pipeline version cannot be empty")
  else if c.stages = [] then
    .error (.validation "Pipeline must have at least one stage")
  else
    match validateEach Config.Stage.validate c.stages with
    | .error e => .error e
    | .ok _ =>
      if c.triggers = [] then
        .error (.validation "Pipeline must have at least one trigger")
      else
        .ok ()

/-- `Pipeline` entity (src/domain/entities/pipeline.rs). -/
structure Pipeline where
  id : PipelineId
  project_id : ProjectId
  name : String
  description : Option String
  config : PipelineConfig
  enabled : Bool
  version : Nat
  tags : List String
  environment : List (String × String)
  created_at : Time
  updated_at : Time
  events : List DomainEvent
  deriving DecidableEq, Repr

/-- `Pipeline::new`: `enabled = true`, `version = 1`, one buffered
`PipelineCreated` event. -/
def Pipeline.new (id : PipelineId) (project_id : ProjectId) (name : String)
    (config : PipelineConfig) (now : Time) : Pipeline :=
  { id := id
    project_id := project_id
    name := name
    description := none
    config := config
    enabled := true
    version := 1
    tags := []
    environment := []
    created_at := now
    updated_at := now
    events := [.pipelineCreated id project_id name now] }

/-- `Pipeline::update_config`: validates, then replaces the config, bumps the
version by one and buffers a `PipelineConfigUpdated` event with
`old_version = version before the bump` and `new_version = version after`. -/
def Pipeline.update_config (p : Pipeline) (config : PipelineConfig)
    (now : Time) : Option Err × Pipeline :=
  match config.validate with
  | .error e => (some e, p)
  | .ok _ =>
    (none, { p with config := config, version := p.version + 1,
                    updated_at := now,
                    events := p.events ++
                      [.pipelineConfigUpdated p.id p.version (p.version + 1) now] })

/-- The loop body of `AgentService::cleanup_dead_agents`
(src/domain/services/agent.rs), with the repository `update` and the
`publish_batch` port passed as fallible functions; `?` on either aborts the
whole pass. `cleaned` is the running count. -/
def cleanupLoop (update : Agent → Except Err Unit)
    (publish_batch : List DomainEvent → Except Err Unit)
    (timeout_seconds : Int) (now : Time) :
    List Agent → Nat → Except Err Nat
  | [], cleaned => .ok cleaned
  | a :: rest, cleaned =>
    if a.status ≠ .offline ∧ a.is_dead timeout_seconds now = true then
      let a1 := a.disconnect now
      match update a1 with
      | .error e => .error e
      | .ok _ =>
        match publish_batch (a1.take_events).1 with
        | .error e => .error e
        | .ok _ => cleanupLoop update publish_batch timeout_seconds now rest (cleaned + 1)
    else
      cleanupLoop update publish_batch timeout_seconds now rest cleaned

/-- `AgentService::cleanup_dead_agents`: scans the agents returned by
`find_all`, disconnects each non-Offline dead agent, persists and publishes
via the ports, and returns the count on success. -/
def cleanup_dead_agents (agents : List Agent)
    (update : Agent → Except Err Unit)
    (publish_batch : List DomainEvent → Except Err Unit)
    (timeout_seconds : Int) (now : Time) : Except Err Nat :=
  cleanupLoop update publish_batch timeout_seconds now agents 0

/-- One application of an `Agent` mutator, failed calls included: a failed
mutator returns the unchanged state, so the second projection covers both
outcomes. The infallible mutators appear directly. -/
inductive Agent.Step : Agent → Agent → Prop where
  | register (a : Agent) (ip : String) (now : Time) :
      Agent.Step a (a.register ip now).2
  | heartbeat (a : Agent) (now : Time) :
      Agent.Step a (a.heartbeat now).2
  | set_maintenance (a : Agent) (now : Time) :
      Agent.Step a (a.set_maintenance now)
  | disconnect (a : Agent) (now : Time) :
      Agent.Step a (a.disconnect now)
  | assign_job (a : Agent) (now : Time) :
      Agent.Step a (a.assign_job now).2
  | release_job (a : Agent) (now : Time) :
      Agent.Step a (a.release_job now).2
  | add_label (a : Agent) (key value : String) (now : Time) :
      Agent.Step a (a.add_label key value now)
  | remove_label (a : Agent) (key : String) (now : Time) :
      Agent.Step a (a.remove_label key now)

/-- States reachable from `Agent::new` by any sequence of mutator calls. -/
inductive Agent.Reachable : Agent → Prop where
  | new (id : AgentId) (name : String) (max_concurrent_jobs : Nat)
      (platform : AgentPlatform) (version : String) (now : Time) :
      Agent.Reachable (Agent.new id name max_concurrent_jobs platform version now)
  | step {a b : Agent} : Agent.Reachable a → Agent.Step a b → Agent.Reachable b

/-- A concrete platform record used to instantiate witnesses. -/
def testPlatform : AgentPlatform :=
  { os := "Linux", os_version := "Ubuntu 22.04", architecture := "x86_64",
    cpu_cores := 8, memory_mb := 16384, disk_gb := 500 }

/-- A concrete online agent with spare capacity. -/
def onlineAgent : Agent :=
  { id := 0, name := "w", description := none, status := .online, labels := [],
    max_concurrent_jobs := 2, current_jobs := 0, platform := testPlatform,
    last_heartbeat := 0, ip_address := some "10.0.0.1", version := "1.0",
    created_at := 0, updated_at := 0, events := [] }

/-- A concrete agent with one running job. -/
def busyAgent : Agent :=
  { onlineAgent with current_jobs := 1 }

/-- Every mutator of `Agent` preserves `current_jobs ≤ max_concurrent_jobs`. -/
theorem Agent.Step.jobs_le {a b : Agent}
    (hab : Agent.Step a b)
    (ih : a.current_jobs ≤ a.max_concurrent_jobs) :
    b.current_jobs ≤ b.max_concurrent_jobs := by
  cases hab with
  | register ip now => simpa [Agent.register] using ih
  | heartbeat now => simpa [Agent.heartbeat] using ih
  | set_maintenance now => simpa [Agent.set_maintenance] using ih
  | disconnect now => simpa [Agent.disconnect] using ih
  | assign_job now =>
    by_cases h : a.can_accept_job
    · have hlt : a.current_jobs < a.max_concurrent_jobs := by
        have := h
        simp only [Agent.can_accept_job, Bool.and_eq_true, decide_eq_true_eq] at this
        exact this.2
      simp [Agent.assign_job, h]
      omega
    · simpa [Agent.assign_job, h] using ih
  | release_job now =>
    by_cases h : a.current_jobs = 0
    · simp [Agent.release_job, h]
    · simp [Agent.release_job, h]
      omega
  | add_label key value now => simpa [Agent.add_label] using ih
  | remove_label key now => simpa [Agent.remove_label] using ih

/-- C1: in every state reachable from `Agent::new` by any sequence of mutator
calls (failed calls included), `current_jobs ≤ max_concurrent_jobs`. -/
theorem agent_capacity_invariant (a : Agent) (h : Agent.Reachable a) :
    a.current_jobs ≤ a.max_concurrent_jobs := by
  induction h with
  | new id name max_concurrent_jobs platform version now =>
    simp [Agent.new]
  | step _ hstep ih => exact hstep.jobs_le ih

/-- Witness for C1: the invariant holds at a concrete reachable state (a fresh
agent after `register` and one `assign_job`). -/
theorem agent_capacity_invariant_witness :
    (((Agent.new 0 "w" 2 testPlatform "1.0" 0).register "10.0.0.1" 1).2.assign_job 2).2.current_jobs ≤
      (((Agent.new 0 "w" 2 testPlatform "1.0" 0).register "10.0.0.1" 1).2.assign_job 2).2.max_concurrent_jobs :=
  agent_capacity_invariant _
    (Agent.Reachable.step
      (Agent.Reachable.step
        (Agent.Reachable.new 0 "w" 2 testPlatform "1.0" 0)
        (Agent.Step.register _ "10.0.0.1" 1))
      (Agent.Step.assign_job _ 2))

/-- C5: `can_accept_job` is `Online ∧ current_jobs < max_concurrent_jobs`;
`assign_job` errors exactly when `can_accept_job` is false (leaving the state
unchanged), and otherwise increments `current_jobs` and sets status Busy iff
the agent is then exactly at capacity, else Online. -/
theorem can_accept_assign_spec (a : Agent) (now : Time) :
    (a.can_accept_job = true ↔
      (a.status = .online ∧ a.current_jobs < a.max_concurrent_jobs)) ∧
    ((a.assign_job now).1 = some (Err.agent "Agent cannot accept more jobs") ↔
      a.can_accept_job = false) ∧
    (a.can_accept_job = false → (a.assign_job now).2 = a) ∧
    (a.can_accept_job = true →
      (a.assign_job now).1 = none ∧
      (a.assign_job now).2.current_jobs = a.current_jobs + 1 ∧
      (a.assign_job now).2.status =
        (if a.current_jobs + 1 = a.max_concurrent_jobs then .busy else .online)) := by
  have hiff : a.can_accept_job = true ↔
      (a.status = .online ∧ a.current_jobs < a.max_concurrent_jobs) := by
    simp [Agent.can_accept_job]
  refine ⟨hiff, ?_, ?_, ?_⟩
  · by_cases h : a.can_accept_job <;> simp [Agent.assign_job, h]
  · intro h
    simp [Agent.assign_job, h]
  · intro h
    have hlt : a.current_jobs < a.max_concurrent_jobs := (hiff.mp h).2
    have hcond : a.current_jobs + 1 ≥ a.max_concurrent_jobs ↔
        a.current_jobs + 1 = a.max_concurrent_jobs := by omega
    simp [Agent.assign_job, h, hcond]

/-- Witness for C5: concrete applications at an agent that can accept a job
and at a fresh (Offline) agent that cannot. -/
theorem can_accept_assign_spec_witness :
    (onlineAgent.assign_job 1).2.current_jobs = onlineAgent.current_jobs + 1 ∧
    ((Agent.new 0 "w" 2 testPlatform "1.0" 0).assign_job 1).2 =
      Agent.new 0 "w" 2 testPlatform "1.0" 0 :=
  ⟨((can_accept_assign_spec onlineAgent 1).2.2.2 (by decide)).2.1,
   (can_accept_assign_spec (Agent.new 0 "w" 2 testPlatform "1.0" 0) 1).2.2.1
     (by decide)⟩

/-- C6: `release_job` fails (with the crate's domain error, the
`Error::Agent("No jobs to release")` value) exactly when `current_jobs == 0`,
leaving the whole state unchanged; otherwise it decrements `current_jobs` and
sets the status to Online. -/
theorem release_job_spec (a : Agent) (now : Time) :
    (a.current_jobs = 0 →
      a.release_job now = (some (Err.agent "No jobs to release"), a)) ∧
    (a.current_jobs ≠ 0 →
      (a.release_job now).1 = none ∧
      (a.release_job now).2.current_jobs = a.current_jobs - 1 ∧
      (a.release_job now).2.status = .online) := by
  constructor
  · intro h
    simp [Agent.release_job, h]
  · intro h
    simp [Agent.release_job, h]

/-- Witness for C6: a zero-job agent is rejected unchanged; an agent with one
job is decremented to zero and set Online. -/
theorem release_job_spec_witness :
    (Agent.new 0 "w" 2 testPlatform "1.0" 0).release_job 1 =
      (some (Err.agent "No jobs to release"), Agent.new 0 "w" 2 testPlatform "1.0" 0) ∧
    (busyAgent.release_job 1).2.current_jobs = busyAgent.current_jobs - 1 ∧
    (busyAgent.release_job 1).2.status = .online :=
  ⟨(release_job_spec (Agent.new 0 "w" 2 testPlatform "1.0" 0) 1).1 (by decide),
   ((release_job_spec busyAgent 1).2 (by decide)).2.1,
   ((release_job_spec busyAgent 1).2 (by decide)).2.2⟩

/-- C10: `heartbeat` always succeeds and changes only `last_heartbeat` and
`updated_at`; every other field — status, jobs, labels, capacity, platform,
addresses, events — is untouched, so in particular `can_accept_job` is
unchanged and no Offline/Disconnected/Maintenance agent becomes Online or
eligible through a heartbeat alone. -/
theorem heartbeat_frame (a : Agent) (now : Time) :
    (a.heartbeat now).1 = none ∧
    (a.heartbeat now).2.last_heartbeat = now ∧
    (a.heartbeat now).2.updated_at = now ∧
    (a.heartbeat now).2.id = a.id ∧
    (a.heartbeat now).2.name = a.name ∧
    (a.heartbeat now).2.description = a.description ∧
    (a.heartbeat now).2.status = a.status ∧
    (a.heartbeat now).2.labels = a.labels ∧
    (a.heartbeat now).2.max_concurrent_jobs = a.max_concurrent_jobs ∧
    (a.heartbeat now).2.current_jobs = a.current_jobs ∧
    (a.heartbeat now).2.platform = a.platform ∧
    (a.heartbeat now).2.ip_address = a.ip_address ∧
    (a.heartbeat now).2.version = a.version ∧
    (a.heartbeat now).2.created_at = a.created_at ∧
    (a.heartbeat now).2.events = a.events ∧
    (a.heartbeat now).2.can_accept_job = a.can_accept_job := by
  simp [Agent.heartbeat, Agent.can_accept_job]

/-- A concrete freshly created build (status Pending). -/
def pendingBuild : Build := Build.new 0 0 0 1 "abc123" "main" .push 0

/-- The concrete build after `start`: status Running. -/
def runningBuild : Build := (pendingBuild.start 7 1).2

/-- The concrete build after `start` then `succeed`: status Success. -/
def successBuild : Build := (runningBuild.succeed 2).2

/-- The concrete build after `cancel` from Pending: status Cancelled. -/
def cancelledBuild : Build := (pendingBuild.cancel 1).2

/-- C4: `start` is guarded by Pending, `succeed`/`fail` by Running; a failed
guard returns the `InvalidState`-style build error and leaves the build
unchanged, and a passed guard sets the corresponding status, the agent and
the start/completion time. -/
theorem build_transition_guards (b : Build) (agent_id : AgentId) (msg : String)
    (now : Time) :
    (b.status ≠ .pending →
      b.start agent_id now = (some (Err.build "Build is not in pending state"), b)) ∧
    (b.status = .pending →
      (b.start agent_id now).1 = none ∧
      (b.start agent_id now).2.status = .running ∧
      (b.start agent_id now).2.agent_id = some agent_id ∧
      (b.start agent_id now).2.started_at = some now) ∧
    (b.status ≠ .running →
      b.succeed now = (some (Err.build "Build is not running"), b)) ∧
    (b.status = .running →
      (b.succeed now).1 = none ∧
      (b.succeed now).2.status = .success ∧
      (b.succeed now).2.completed_at = some now) ∧
    (b.status ≠ .running →
      b.fail msg now = (some (Err.build "Build is not running"), b)) ∧
    (b.status = .running →
      (b.fail msg now).1 = none ∧
      (b.fail msg now).2.status = .failed ∧
      (b.fail msg now).2.error_message = some msg ∧
      (b.fail msg now).2.completed_at = some now) := by
  refine ⟨?_, ?_, ?_, ?_, ?_, ?_⟩ <;> intro h <;>
    simp [Build.start, Build.succeed, Build.fail, h]

/-- Witness for C4: the guards applied to a concrete Pending build and to the
concrete Running build obtained from it. -/
theorem build_transition_guards_witness :
    (pendingBuild.start 7 1).2.status = .running ∧
    (runningBuild.succeed 2).2.status = .success ∧
    pendingBuild.succeed 2 = (some (Err.build "Build is not running"), pendingBuild) ∧
    (runningBuild.fail "boom" 2).2.status = .failed ∧
    runningBuild.start 7 2 =
      (some (Err.build "Build is not in pending state"), runningBuild) :=
  ⟨((build_transition_guards pendingBuild 7 "boom" 1).2.1 (by decide)).2.1,
   ((build_transition_guards runningBuild 7 "boom" 2).2.2.2.1 (by decide)).2.1,
   (build_transition_guards pendingBuild 7 "boom" 2).2.2.1 (by decide),
   ((build_transition_guards runningBuild 7 "boom" 2).2.2.2.2.2 (by decide)).2.1,
   (build_transition_guards runningBuild 7 "boom" 2).1 (by decide)⟩

/-- Counterexample to C3 as stated: a build whose status is the terminal
status Cancelled is cancelled again successfully (`cancel` returns `Ok` and
buffers a second `BuildCancelled` event) instead of failing with
`InvalidState`, because the guard in `Build::cancel` checks only for Success
and Failed. -/
theorem cancel_cancelled_succeeds :
    cancelledBuild.status = BuildStatus.cancelled ∧
    (cancelledBuild.cancel 2).1 = none ∧
    (cancelledBuild.cancel 2).2.events =
      cancelledBuild.events ++ [.buildCancelled cancelledBuild.id 2] := by
  decide

/-- C3 (amended): `cancel` fails with the `InvalidState`-style build error and
leaves the build unchanged exactly when the status is Success or Failed; from
every other status — Pending, Running, and also the terminal Cancelled — it
succeeds, sets status Cancelled, records the completion time and buffers a
`BuildCancelled` event. -/
theorem cancel_spec (b : Build) (now : Time) :
    ((b.cancel now).1 = none ↔ (b.status ≠ .success ∧ b.status ≠ .failed)) ∧
    ((b.status = .success ∨ b.status = .failed) →
      b.cancel now = (some (Err.build "Cannot cancel completed build"), b)) ∧
    ((b.status ≠ .success ∧ b.status ≠ .failed) →
      (b.cancel now).2.status = .cancelled ∧
      (b.cancel now).2.completed_at = some now ∧
      (b.cancel now).2.events = b.events ++ [.buildCancelled b.id now]) := by
  by_cases h : b.status = .success ∨ b.status = .failed
  · refine ⟨?_, fun _ => by simp [Build.cancel, h], fun hc => ?_⟩
    · simp only [Build.cancel, if_pos h]
      simp
      tauto
    · exact absurd h (by tauto)
  · refine ⟨?_, fun hc => absurd hc h, fun _ => by simp [Build.cancel, h]⟩
    simp only [Build.cancel, if_neg h]
    simp
    tauto

/-- Witness for the amended C3: the concrete Success build is rejected
unchanged, the concrete Pending build is cancelled. -/
theorem cancel_spec_witness :
    successBuild.cancel 3 =
      (some (Err.build "Cannot cancel completed build"), successBuild) ∧
    (pendingBuild.cancel 1).2.status = .cancelled :=
  ⟨(cancel_spec successBuild 3).2.1 (by decide),
   ((cancel_spec pendingBuild 1).2.2 (by decide)).1⟩

/-- A concrete job configuration with one command. -/
def compileJobCfg : Config.Job :=
  { name := "compile", image := none, commands := ["echo hi"], environment := [],
    working_directory := none, timeout := none, retry := none, artifacts := none,
    cache := none, needs := [], when := none }

/-- A concrete valid pipeline configuration: one stage, one job with a
command, one Manual trigger. -/
def validConfig : PipelineConfig :=
  { version := "1.0",
    stages := [{ name := "build", jobs := [compileJobCfg], parallel := false,
                 when := none }],
    triggers := [.manual], environment := [], notifications := none }

/-- A concrete invalid pipeline configuration: no stages. -/
def invalidConfig : PipelineConfig := { validConfig with stages := [] }

/-- A concrete pipeline built over the valid configuration. -/
def testPipeline : Pipeline := Pipeline.new 0 0 "pipe" validConfig 0

/-- C8: `update_config` is atomic. A config that fails validation is rejected
with the validation error and the pipeline — config, version, `updated_at`
and event buffer included — is returned unchanged; a valid config replaces
the stored config, bumps the version by exactly one and buffers one
`PipelineConfigUpdated` event whose old and new versions differ by one. -/
theorem update_config_atomic (p : Pipeline) (c : PipelineConfig) (now : Time) :
    (∀ e, c.validate = .error e → p.update_config c now = (some e, p)) ∧
    (c.validate = .ok () →
      (p.update_config c now).1 = none ∧
      (p.update_config c now).2.config = c ∧
      (p.update_config c now).2.version = p.version + 1 ∧
      (p.update_config c now).2.updated_at = now ∧
      (p.update_config c now).2.events =
        p.events ++ [.pipelineConfigUpdated p.id p.version (p.version + 1) now]) := by
  constructor
  · intro e h
    simp [Pipeline.update_config, h]
  · intro h
    simp [Pipeline.update_config, h]

/-- Witness for C8: the concrete pipeline rejects the stage-less config
unchanged and accepts the valid one with a version bump of exactly one. -/
theorem update_config_atomic_witness :
    testPipeline.update_config invalidConfig 1 =
      (some (Err.validation "Pipeline must have at least one stage"), testPipeline) ∧
    (testPipeline.update_config validConfig 1).2.version = testPipeline.version + 1 :=
  ⟨(update_config_atomic testPipeline invalidConfig 1).1
      (Err.validation "Pipeline must have at least one stage") rfl,
   ((update_config_atomic testPipeline validConfig 1).2 rfl).2.2.1⟩

/-- A concrete Failed job with retry budget 1 after its first attempt. -/
def failedJob : Job :=
  { Job.new 0 0 "j" "build" ["make"] 0 with
      status := .failed, retry := 1, attempt := 1, logs := "log",
      started_at := some 1, completed_at := some 2, exit_code := some 1 }

/-- A concrete Queued job. -/
def queuedJob : Job := { Job.new 1 0 "j2" "build" ["make"] 0 with status := .queued }

/-- C9: `can_retry` is `Failed ∧ attempt < retry + 1`; `retry_job` succeeds
exactly when `can_retry` holds (otherwise the job is unchanged), and on
success resets status to Queued, clears `started_at`, `completed_at`,
`exit_code` and the logs while leaving `attempt` unchanged; `attempt` is
incremented only by the next successful `start` from Queued. -/
theorem job_retry_spec (j : Job) (agent_id : AgentId) (now : Time) :
    (j.can_retry = true ↔ (j.status = .failed ∧ j.attempt < j.retry + 1)) ∧
    ((j.retry_job now).1 = none ↔ j.can_retry = true) ∧
    (j.can_retry = false → (j.retry_job now).2 = j) ∧
    (j.can_retry = true →
      (j.retry_job now).2.status = .queued ∧
      (j.retry_job now).2.started_at = none ∧
      (j.retry_job now).2.completed_at = none ∧
      (j.retry_job now).2.exit_code = none ∧
      (j.retry_job now).2.logs = "" ∧
      (j.retry_job now).2.attempt = j.attempt) ∧
    (j.status = .queued → (j.start agent_id now).2.attempt = j.attempt + 1) := by
  refine ⟨?_, ?_, ?_, ?_, ?_⟩
  · simp [Job.can_retry]
  · by_cases h : j.can_retry <;> simp [Job.retry_job, h]
  · intro h
    simp [Job.retry_job, h]
  · intro h
    simp [Job.retry_job, h]
  · intro h
    simp [Job.start, h]

/-- Witness for C9: the concrete Failed job is retried (fields cleared,
attempt kept), a fresh Pending job is rejected unchanged, and the concrete
Queued job's `start` bumps the attempt counter. -/
theorem job_retry_spec_witness :
    (failedJob.retry_job 3).2.status = .queued ∧
    (failedJob.retry_job 3).2.attempt = failedJob.attempt ∧
    ((Job.new 0 0 "j" "build" ["make"] 0).retry_job 3).2 =
      Job.new 0 0 "j" "build" ["make"] 0 ∧
    (queuedJob.start 7 4).2.attempt = queuedJob.attempt + 1 :=
  ⟨((job_retry_spec failedJob 7 3).2.2.2.1 (by decide)).1,
   ((job_retry_spec failedJob 7 3).2.2.2.1 (by decide)).2.2.2.2.2,
   (job_retry_spec (Job.new 0 0 "j" "build" ["make"] 0) 7 3).2.2.1 (by decide),
   (job_retry_spec queuedJob 7 4).2.2.2.2 (by decide)⟩

/-- Sequential validation succeeds exactly when every element validates. -/
theorem validateEach_ok_iff (f : α → Except Err Unit) (xs : List α) :
    validateEach f xs = .ok () ↔ ∀ x ∈ xs, f x = .ok () := by
  induction xs with
  | nil => simp [validateEach]
  | cons x xs ih =>
    cases hfx : f x with
    | error e => simp [validateEach, hfx]
    | ok u =>
      cases u
      simp [validateEach, hfx, ih]

/-- A sequential-validation error is the error of some element. -/
theorem validateEach_error (f : α → Except Err Unit) (xs : List α) (e : Err)
    (h : validateEach f xs = .error e) : ∃ x ∈ xs, f x = .error e := by
  induction xs with
  | nil => simp [validateEach] at h
  | cons x xs ih =>
    cases hfx : f x with
    | error e2 =>
      simp [validateEach, hfx] at h
      exact ⟨x, by simp, by simp [hfx, h]⟩
    | ok u =>
      cases u
      simp [validateEach, hfx] at h
      obtain ⟨y, hy, hfy⟩ := ih h
      exact ⟨y, by simp [hy], hfy⟩

/-- `Config.Job::validate` succeeds exactly on the spec's job condition. -/
theorem cfgJob_validate_ok_iff (j : Config.Job) :
    j.validate = .ok () ↔ (j.name ≠ "" ∧ (j.commands ≠ [] ∨ j.image ≠ none)) := by
  by_cases h1 : j.name = ""
  · simp [Config.Job.validate, h1]
  · by_cases h2 : j.commands = [] ∧ j.image = none
    · simp [Config.Job.validate, h1, h2]
    · simp [Config.Job.validate, h1, h2]
      tauto

/-- Every error produced by `Config.Job::validate` is a Validation error. -/
theorem cfgJob_validate_error_kind (j : Config.Job) (e : Err)
    (h : j.validate = .error e) : ∃ msg, e = Err.validation msg := by
  by_cases h1 : j.name = ""
  · simp [Config.Job.validate, h1] at h
    exact ⟨_, h.symm⟩
  · by_cases h2 : j.commands = [] ∧ j.image = none
    · simp [Config.Job.validate, h1, h2] at h
      exact ⟨_, h.symm⟩
    · simp [Config.Job.validate, h1, h2] at h

/-- `Config.Stage::validate` succeeds exactly on the spec's stage condition. -/
theorem cfgStage_validate_ok_iff (s : Config.Stage) :
    s.validate = .ok () ↔
      (s.name ≠ "" ∧ s.jobs ≠ [] ∧
        ∀ j ∈ s.jobs, j.name ≠ "" ∧ (j.commands ≠ [] ∨ j.image ≠ none)) := by
  by_cases h1 : s.name = ""
  · simp [Config.Stage.validate, h1]
  · by_cases h2 : s.jobs = []
    · simp [Config.Stage.validate, h1, h2]
    · simp only [Config.Stage.validate, if_neg h1, if_neg h2]
      rw [validateEach_ok_iff]
      simp only [cfgJob_validate_ok_iff]
      exact ⟨fun hall => ⟨h1, h2, hall⟩, fun h => h.2.2⟩

/-- Every error produced by `Config.Stage::validate` is a Validation error. -/
theorem cfgStage_validate_error_kind (s : Config.Stage) (e : Err)
    (h : s.validate = .error e) : ∃ msg, e = Err.validation msg := by
  by_cases h1 : s.name = ""
  · simp [Config.Stage.validate, h1] at h
    exact ⟨_, h.symm⟩
  · by_cases h2 : s.jobs = []
    · simp [Config.Stage.validate, h1, h2] at h
      exact ⟨_, h.symm⟩
    · simp only [Config.Stage.validate, if_neg h1, if_neg h2] at h
      obtain ⟨j, _, hj⟩ := validateEach_error _ _ _ h
      exact cfgJob_validate_error_kind j e hj

/-- C7: `PipelineConfig::validate` succeeds iff the version is non-empty,
there is at least one stage and at least one trigger, every stage has a
non-empty name and at least one job, and every job has a non-empty name and
at least one command or an image; every failure is a Validation error. -/
theorem pipeline_config_validate_spec (c : PipelineConfig) :
    (c.validate = .ok () ↔
      (c.version ≠ "" ∧ c.stages ≠ [] ∧ c.triggers ≠ [] ∧
        ∀ s ∈ c.stages, s.name ≠ "" ∧ s.jobs ≠ [] ∧
          ∀ j ∈ s.jobs, j.name ≠ "" ∧ (j.commands ≠ [] ∨ j.image ≠ none))) ∧
    (∀ e, c.validate = .error e → ∃ msg, e = Err.validation msg) := by
  constructor
  · by_cases h1 : c.version = ""
    · simp [PipelineConfig.validate, h1]
    · by_cases h2 : c.stages = []
      · simp [PipelineConfig.validate, h1, h2]
      · simp only [PipelineConfig.validate, if_neg h1, if_neg h2]
        cases hst : validateEach Config.Stage.validate c.stages with
        | error e =>
          simp only []
          constructor
          · intro h
            simp at h
          · rintro ⟨-, -, -, hall⟩
            obtain ⟨s, hs, hse⟩ := validateEach_error _ _ _ hst
            have : s.validate = .ok () :=
              (cfgStage_validate_ok_iff s).mpr (hall s hs)
            simp [this] at hse
        | ok u =>
          cases u
          have hall : ∀ s ∈ c.stages, s.name ≠ "" ∧ s.jobs ≠ [] ∧
              ∀ j ∈ s.jobs, j.name ≠ "" ∧ (j.commands ≠ [] ∨ j.image ≠ none) := by
            intro s hs
            exact (cfgStage_validate_ok_iff s).mp ((validateEach_ok_iff _ _).mp hst s hs)
          by_cases h3 : c.triggers = []
          · simp [h3, h1, h2]
          · simp [h3, h1, h2]
            exact hall
  · intro e h
    by_cases h1 : c.version = ""
    · simp [PipelineConfig.validate, h1] at h
      exact ⟨_, h.symm⟩
    · by_cases h2 : c.stages = []
      · simp [PipelineConfig.validate, h1, h2] at h
        exact ⟨_, h.symm⟩
      · simp only [PipelineConfig.validate, if_neg h1, if_neg h2] at h
        cases hst : validateEach Config.Stage.validate c.stages with
        | error e2 =>
          rw [hst] at h
          simp at h
          obtain ⟨s, _, hse⟩ := validateEach_error _ _ _ hst
          obtain ⟨msg, hmsg⟩ := cfgStage_validate_error_kind s e2 hse
          exact ⟨msg, by rw [← h, hmsg]⟩
        | ok u =>
          cases u
          rw [hst] at h
          by_cases h3 : c.triggers = []
          · simp [h3] at h
            exact ⟨_, h.symm⟩
          · simp [h3] at h

/-- Witness for C7: the concrete valid configuration validates, and the
validation error of the concrete stage-less configuration is a Validation
error. -/
theorem pipeline_config_validate_spec_witness :
    validConfig.validate = .ok () ∧
    ∃ msg, Err.validation "Pipeline must have at least one stage" =
      Err.validation msg :=
  ⟨(pipeline_config_validate_spec validConfig).1.mpr (by decide),
   (pipeline_config_validate_spec invalidConfig).2
     (Err.validation "Pipeline must have at least one stage") rfl⟩

/-- A concrete dead Online agent (heartbeat at 0, scanned at 200 with a 60s
timeout) whose repository update will fail. -/
def deadAgent1 : Agent := { onlineAgent with id := 1 }

/-- A second concrete dead Online agent behind the failing one. -/
def deadAgent2 : Agent := { onlineAgent with id := 2 }

/-- A concrete Offline agent, skipped by the reaper scan. -/
def offAgent : Agent := { onlineAgent with id := 3, status := .offline }

/-- A repository `update` port that fails for agent 1 and succeeds for every
other agent. -/
def updFail : Agent → Except Err Unit :=
  fun a => if a.id = 1 then .error (.agent "db down") else .ok ()

/-- An event-publish port that always succeeds. -/
def pubOk : List DomainEvent → Except Err Unit := fun _ => .ok ()

/-- Counterexample to C2 as stated: with two dead Online agents and a
repository whose update fails for the first, `cleanup_dead_agents` surfaces
that agent's error instead of continuing the scan and returning a count. -/
theorem cleanup_surfaces_error_counterexample :
    deadAgent1.status ≠ .offline ∧ deadAgent1.is_dead 60 200 = true ∧
    deadAgent2.status ≠ .offline ∧ deadAgent2.is_dead 60 200 = true ∧
    cleanup_dead_agents [deadAgent1, deadAgent2] updFail pubOk 60 200 =
      .error (.agent "db down") :=
  ⟨by decide, by decide, by decide, by decide, rfl⟩

/-- If every agent before `a` in the scan is skipped (Offline or alive) and
the repository update for the disconnected `a` fails, the whole loop returns
that error, whatever the running count. -/
theorem cleanupLoop_error_of_update
    (update : Agent → Except Err Unit)
    (publish_batch : List DomainEvent → Except Err Unit)
    (timeout_seconds now : Int) (e : Err) (pre rest : List Agent) (a : Agent)
    (hpre : ∀ b ∈ pre, ¬(b.status ≠ .offline ∧ b.is_dead timeout_seconds now = true))
    (ha : a.status ≠ .offline ∧ a.is_dead timeout_seconds now = true)
    (hupd : update (a.disconnect now) = .error e) :
    ∀ cleaned, cleanupLoop update publish_batch timeout_seconds now
      (pre ++ a :: rest) cleaned = .error e := by
  induction pre with
  | nil =>
    intro cleaned
    simp [cleanupLoop, ha, hupd]
  | cons b pre ih =>
    intro cleaned
    have hb := hpre b (by simp)
    simp only [List.cons_append, cleanupLoop, if_neg hb]
    exact ih (fun x hx => hpre x (by simp [hx])) cleaned

/-- As above, but with the update succeeding and the event publish failing. -/
theorem cleanupLoop_error_of_publish
    (update : Agent → Except Err Unit)
    (publish_batch : List DomainEvent → Except Err Unit)
    (timeout_seconds now : Int) (e : Err) (pre rest : List Agent) (a : Agent)
    (hpre : ∀ b ∈ pre, ¬(b.status ≠ .offline ∧ b.is_dead timeout_seconds now = true))
    (ha : a.status ≠ .offline ∧ a.is_dead timeout_seconds now = true)
    (hupd : update (a.disconnect now) = .ok ())
    (hpub : publish_batch ((a.disconnect now).take_events).1 = .error e) :
    ∀ cleaned, cleanupLoop update publish_batch timeout_seconds now
      (pre ++ a :: rest) cleaned = .error e := by
  induction pre with
  | nil =>
    intro cleaned
    simp [cleanupLoop, ha, hupd, hpub]
  | cons b pre ih =>
    intro cleaned
    have hb := hpre b (by simp)
    simp only [List.cons_append, cleanupLoop, if_neg hb]
    exact ih (fun x hx => hpre x (by simp [hx])) cleaned

/-- C2 (amended): `cleanup_dead_agents` does not collect per-agent failures.
For the first dead non-Offline agent of the scan, a failing repository update
— or a successful update followed by a failing event publish — aborts the
pass and the call surfaces that agent's error instead of a count; later
agents are not reached. -/
theorem cleanup_propagates_first_error
    (pre rest : List Agent) (a : Agent)
    (update : Agent → Except Err Unit)
    (publish_batch : List DomainEvent → Except Err Unit)
    (timeout_seconds now : Int) (e : Err)
    (hpre : ∀ b ∈ pre, ¬(b.status ≠ .offline ∧ b.is_dead timeout_seconds now = true))
    (ha : a.status ≠ .offline ∧ a.is_dead timeout_seconds now = true) :
    (update (a.disconnect now) = .error e →
      cleanup_dead_agents (pre ++ a :: rest) update publish_batch
        timeout_seconds now = .error e) ∧
    (update (a.disconnect now) = .ok () →
      publish_batch ((a.disconnect now).take_events).1 = .error e →
      cleanup_dead_agents (pre ++ a :: rest) update publish_batch
        timeout_seconds now = .error e) := by
  constructor
  · intro hupd
    exact cleanupLoop_error_of_update update publish_batch timeout_seconds now e
      pre rest a hpre ha hupd 0
  · intro hupd hpub
    exact cleanupLoop_error_of_publish update publish_batch timeout_seconds now e
      pre rest a hpre ha hupd hpub 0

/-- Witness for the amended C2: an Offline agent is skipped, then the failing
update for the first dead agent aborts the pass with its error. -/
theorem cleanup_propagates_first_error_witness :
    cleanup_dead_agents ([offAgent] ++ deadAgent1 :: [deadAgent2]) updFail pubOk
      60 200 = .error (.agent "db down") :=
  (cleanup_propagates_first_error [offAgent] [deadAgent2] deadAgent1 updFail
    pubOk 60 200 (.agent "db down") (by decide) (by decide)).1 rfl

end Ferrous
